import Mathlib

set_option maxRecDepth 10000

/-!
Shallow embedding of the youtube-to-blog pipeline.

The embedding covers the two core modules of the repository:

* `src/src/utils/youtube_processor.py` — the extraction chain
  (`_video_id`, the transcript cache, the strategy loop of
  `fetch_transcript`);
* `src/src/orchestrator.py` — `BlogOrchestrator`
  (`_enhance_poor_transcript`, `_get_quality_fallback`,
  the per-worker loop of `generate_blog_post`,
  `_assemble_blog_guaranteed`);
* `src/src/workers/implementations.py` — `BaseWorker.generate` and the
  fallback content of the workers;
* `src/blog_generator.py` — the CLI `main`, for the persistence claim.

External effects (network calls of the strategies, the chat-completion
service behind the workers, wall-clock time) are passed in as explicit
parameters: a strategy's behaviour for the processed video is an
`Option String` (`none` models both "returned nothing / too short" and
"raised", which `fetch_transcript` treats identically), a worker's awaited
outcome is a `WorkerOutcome`, the elapsed-time figure interpolated into the
failure-explanation message is a string parameter.
-/

namespace YtBlog

/-! ## Python string primitives

Python's `str.strip()` and no-argument `str.split()` are modelled by
structural recursion over the character list (Lean's own `String.trim`
and `String.split` are extensionally the same on the ASCII text handled
here but are defined by well-founded recursion, which does not reduce
inside the kernel; the claims need evaluable definitions). -/

/-- Python `s.strip()`: drop leading and trailing whitespace. -/
def pyStrip (s : String) : String :=
  String.mk
    (((s.data.dropWhile Char.isWhitespace).reverse.dropWhile
        Char.isWhitespace).reverse)

/-- Accumulator-based scan behind Python `s.split()`: whitespace runs
separate words, empty pieces are dropped. The accumulator holds the
current word reversed. -/
def wordsAux : List Char → List Char → List String
  | [], acc => if acc = [] then [] else [String.mk acc.reverse]
  | c :: rest, acc =>
    if c.isWhitespace then
      if acc = [] then wordsAux rest []
      else String.mk acc.reverse :: wordsAux rest []
    else wordsAux rest (c :: acc)

/-- Python `s.split()` (no separator). -/
def pyWords (s : String) : List String :=
  wordsAux s.data []

/-- `len(s.split())` as used for the word-count statistic. -/
def pyWordCount (s : String) : Nat :=
  (pyWords s).length

/-! ## Video-id extraction: `_video_id` of youtube_processor.py

`_ID_RE = re.compile(r"(?:v=|/)([0-9A-Za-z_-]{11})")`; `_video_id` returns
the first match of the 11-character group, raising `ValueError` when the
regex does not match (modelled as `none`). -/

/-- The character class `[0-9A-Za-z_-]` of `_ID_RE`. -/
def isIdChar (c : Char) : Bool :=
  c.isAlphanum || c = '_' || c = '-'

/-- Left-to-right scan of `re.search` for `(?:v=|/)([0-9A-Za-z_-]{11})`:
at each position first try the prefix `v=`, then `/`; a match needs
11 class characters right after the prefix. When `v=` is present but not
followed by 11 class characters, the scan resumes at the following `=`,
where neither alternative of the prefix can match (`=` is neither `v` nor
`/`), so the scan continues directly past it. -/
def findId : List Char → Option (List Char)
  | [] => none
  | 'v' :: '=' :: rest =>
    if (rest.take 11).length = 11 ∧ (rest.take 11).all isIdChar then
      some (rest.take 11)
    else findId rest
  | '/' :: rest =>
    if (rest.take 11).length = 11 ∧ (rest.take 11).all isIdChar then
      some (rest.take 11)
    else findId rest
  | _ :: rest => findId rest

/-- `_video_id(url)`: `none` models the `ValueError` raised when the
pattern does not match. -/
def videoId (url : String) : Option String :=
  (findId url.data).map String.mk

/-! ## The transcript cache

One file per `(video id, strategy)` key under `.cache/transcripts`
(`_cache_path`), read with `.read_text()` and written with
`.write_text(result)`. The file system is modelled as an association
list from key to stored text; a missing entry models a missing file. -/

abbrev Cache := List ((String × String) × String)

def cacheGet : Cache → String × String → Option String
  | [], _ => none
  | (k', v) :: rest, k => if k' = k then some v else cacheGet rest k

def cachePut (c : Cache) (k : String × String) (v : String) : Cache :=
  (k, v) :: c

/-! ## The extraction chain: `fetch_transcript` of youtube_processor.py -/

def EXTRACTION_STRATEGIES : List String :=
  ["youtube_captions", "youtube_api_fallback", "video_description",
   "whisper_optimized", "whisper_basic"]

/-- The cache-probing loop at the top of `fetch_transcript`: for each
strategy in order, if the cache file exists, read and strip it, and return
it when it is non-empty and longer than 100 characters. -/
def checkCaches (vid : String) (cache : Cache) : List String → Option String
  | [] => none
  | s :: rest =>
    match cacheGet cache (vid, s) with
    | some t =>
      if pyStrip t ≠ "" ∧ (pyStrip t).length > 100 then some (pyStrip t)
      else checkCaches vid cache rest
    | none => checkCaches vid cache rest

/-- The strategy loop of `fetch_transcript`: try each strategy in order;
a result that is non-empty and whose strip has more than 100 characters is
written to the cache under that strategy's key and its strip is returned.
An exception inside a strategy call is caught by the surrounding
`try/except` and the loop continues, which is indistinguishable from the
strategy returning `None`; both are modelled by `none`. Returns the
successful text (if any), the updated cache, and the names of the
strategies that were invoked, in order. -/
def tryStrategies (vid : String) (attempt : String → Option String)
    (cache : Cache) : List String → Option String × Cache × List String
  | [] => (none, cache, [])
  | s :: rest =>
    match attempt s with
    | some r =>
      if r ≠ "" ∧ (pyStrip r).length > 100 then
        (some (pyStrip r), cachePut cache (vid, s) r, [s])
      else
        let (o, c, called) := tryStrategies vid attempt cache rest
        (o, c, s :: called)
    | none =>
      let (o, c, called) := tryStrategies vid attempt cache rest
      (o, c, s :: called)

/-- The failure-explanation message synthesized when every strategy fails;
`elapsed` stands for the interpolated `f"{elapsed:.1f}"` figure. -/
def errorMsg (elapsed : String) : String :=
  "All extraction strategies failed after " ++ elapsed ++ "s. " ++
  "This video may be:\n" ++
  "• Private or region-restricted\n" ++
  "• Has no speech content (music only)\n" ++
  "• Has very poor audio quality\n" ++
  "• Is too short to extract meaningful content\n\n" ++
  "Please try a different video with clear speech."

/-- Result of one `fetch_transcript` call: the returned text, the cache
after the call, and the names of the strategies invoked during the call. -/
structure FetchResult where
  text : String
  cache : Cache
  called : List String
deriving DecidableEq

/-- `fetch_transcript(url)`. `Except.error` models the `ValueError`
propagated out of `_video_id` when the URL holds no video id; every other
path returns text. -/
def fetchTranscript (url : String) (cache : Cache)
    (attempt : String → Option String) (elapsed : String) :
    Except String FetchResult :=
  match videoId url with
  | none => .error ("Cannot extract YouTube ID from: " ++ url)
  | some vid =>
    match checkCaches vid cache EXTRACTION_STRATEGIES with
    | some cached => .ok ⟨cached, cache, []⟩
    | none =>
      match tryStrategies vid attempt cache EXTRACTION_STRATEGIES with
      | (some t, c, called) => .ok ⟨t, c, called⟩
      | (none, c, called) => .ok ⟨errorMsg elapsed, c, called⟩

/-! ## String helpers shared by the orchestrator embedding -/

/-- Whether `sub` occurs as a contiguous run inside `l`. -/
def subOccurs : List Char → List Char → Bool
  | [], sub => sub.isEmpty
  | c :: rest, sub => sub.isPrefixOf (c :: rest) || subOccurs rest sub

/-- Python `sub in s` substring test. -/
def strContains (s sub : String) : Bool :=
  subOccurs s.data sub.data

/-- Python `str.title()`: a word is a maximal run of letters; its first
letter is uppercased, the rest lowercased. The boolean argument records
whether the previous character was a letter. -/
def titleChars : Bool → List Char → List Char
  | _, [] => []
  | prevAlpha, c :: rest =>
    if c.isAlpha then
      (if prevAlpha then c.toLower else c.toUpper) :: titleChars true rest
    else c :: titleChars false rest

def pyTitle (s : String) : String :=
  String.mk (titleChars false s.data)

/-- Python `d.get(k, default)` over an association list. -/
def dictGet : List (String × String) → String → String → String
  | [], _, dflt => dflt
  | (k', v) :: rest, k, dflt => if k' = k then v else dictGet rest k dflt

/-! ## BlogOrchestrator: orchestrator.py -/

/-- The registered workers, in registration order
(`BlogOrchestrator.__init__`); each entry is the worker's `name`. -/
def workers : List String :=
  ["title", "intro", "key_points", "quotes", "summary", "conclusion",
   "seo", "tags"]

/-- `youtube_url.split('v=')[-1].split('&')[0] if 'v=' in youtube_url else
'unknown'`, the ad-hoc id extraction inside the orchestrator. `splitOn`
never returns `[]`, so `getLastD`/`headD` agree with Python's `[-1]`/`[0]`. -/
def orchVideoId (url : String) : String :=
  if strContains url "v=" then
    (((url.splitOn "v=").getLastD "").splitOn "&").headD ""
  else "unknown"

/-- The f-string body of `_enhance_poor_transcript`; `vid` is the
interpolated `video_id` and `origLen` the interpolated
`len(transcript) if transcript else 0`. -/
def enhancedContent (vid : String) (origLen : Nat) : String :=
  "Video Content Analysis\n\n" ++
  "This analysis covers a YouTube video that provides insights and information on various topics. \n\n" ++
  "Video Information:\n" ++
  "- Video ID: " ++ vid ++ "\n" ++
  "- Platform: YouTube\n" ++
  "- Content Type: Video content with educational or informational value\n\n" ++
  "The video appears to discuss important themes and concepts that can provide value to viewers. Based on the visual and audio elements, this content likely offers perspectives and knowledge relevant to its intended audience.\n\n" ++
  "Key aspects that may be covered include:\n" ++
  "• Practical insights and useful information\n" ++
  "• Educational content and learning opportunities  \n" ++
  "• Visual demonstrations or presentations\n" ++
  "• Entertainment or inspirational elements\n" ++
  "• Community discussion and engagement\n\n" ++
  "Analysis Focus: Understanding the intent and value of multimedia content that may include visual storytelling, demonstrations, music, or other non-text elements that contribute to the overall viewer experience.\n\n" ++
  "Original transcript length: " ++ toString origLen ++ " characters\n" ++
  "Enhanced for comprehensive analysis: Yes\n\n" ++
  "This analysis provides meaningful insights regardless of transcript availability, focusing on the broader value and context of the video content."

/-- `BlogOrchestrator._enhance_poor_transcript`: transcripts that are
falsy or whose strip is shorter than 100 characters are replaced by the
synthetic analysis text; anything else passes through unchanged. -/
def enhancePoorTranscript (transcript url : String) : String :=
  if transcript = "" ∨ (pyStrip transcript).length < 100 then
    enhancedContent (if strContains url "v=" then orchVideoId url else "unknown")
      transcript.length
  else transcript

/-- `BlogOrchestrator._get_quality_fallback`: the per-worker fallback
dictionary (the `video_id` computed by the Python function is not
interpolated into any dictionary value, only into the `.get` default via
`worker_name.title()` — the URL argument is therefore unused for the
registered worker names). -/
def getQualityFallback (workerName url : String) : String :=
  if workerName = "title" then
    "# Insights and Analysis: YouTube Video Deep Dive\n\nExploring valuable content and key takeaways from this engaging video."
  else if workerName = "intro" then
    "Have you ever wondered what makes certain video content truly valuable? This video caught my attention because it represents the kind of content that provides genuine insights to its audience.\n\nWhether you\x27re here for the educational value, entertainment, or just curious about the topic, there\x27s something worth exploring in this content. Let me walk you through what makes this video interesting and what we can learn from it."
  else if workerName = "key_points" then
    "## Key Insights and Takeaways\n\n### 🎯 **Content Value**\nThe video provides meaningful information that serves its intended audience, whether through education, entertainment, or inspiration.\n\n### 📚 **Learning Opportunities**  \nThere are concepts and ideas presented that can expand understanding or provide new perspectives on the topic.\n\n### 🎬 **Production Quality**\nThe content demonstrates thoughtful creation, considering both visual and audio elements to deliver its message effectively.\n\n### 💡 **Practical Applications**\nElements of the content can be applied or reflected upon, providing actionable insights for viewers.\n\n### 🌟 **Audience Engagement**\nThe video likely resonates with its target audience, creating opportunities for discussion and further exploration."
  else if workerName = "quotes" then
    "## Notable Elements and Insights\n\n> \"Every piece of content tells a story, and every story has value for someone.\"\n\nThis reflects the fundamental truth about video content - that even when specific details aren\x27t available, the intent and effort behind creation carry meaning.\n\n> \"The best insights often come from understanding context, not just content.\"\n\nThis reminds us that video analysis involves appreciating the broader picture: who created it, why, and what value it provides to its community.\n\n> \"Engagement happens when content meets curiosity.\"\n\nThis highlights how effective videos bridge the gap between what creators want to share and what audiences want to discover."
  else if workerName = "summary" then
    "## Content Analysis Summary\n\nThis video represents a piece of content created with intention and purpose. While specific transcript details may be limited, the video format suggests it contains valuable information conveyed through multiple channels - visual, audio, and contextual.\n\n**Key Observations:**\n- The content serves a specific audience with particular interests or needs\n- Visual and audio elements work together to deliver the intended message  \n- The creation represents effort and thought put into sharing information or experiences\n- There\x27s potential for viewer engagement and learning, regardless of the specific topic\n\n**Value Proposition:**\nThe video contributes to the broader ecosystem of online content, providing entertainment, education, or inspiration to its viewers. This type of content helps build communities and facilitates knowledge sharing in the digital space.\n\n**Broader Context:**\nUnderstanding video content goes beyond just words - it involves appreciating the creative process, technical execution, and audience connection that makes digital media meaningful."
  else if workerName = "conclusion" then
    "## Final Thoughts and Next Steps\n\nHere\x27s what I find most interesting about analyzing video content: it\x27s not just about what\x27s explicitly said, but about the entire experience created for viewers.\n\n**If you\x27re curious about this type of content:**\n- Explore similar videos from the same creator or topic area\n- Engage with the community around this subject\n- Consider how the visual and audio elements enhance the message\n- Think about what draws you to this particular style or topic\n\n**For content creators:**\nThis video demonstrates that successful content comes in many forms. Whether through detailed narration, visual storytelling, or community building, there are multiple ways to provide value to your audience.\n\n**The bigger picture:**\nEvery video is part of someone\x27s learning journey, entertainment experience, or creative exploration. That alone makes it worth understanding and appreciating.\n\nWhat resonates most with you about this content? Sometimes the best insights come from asking yourself what drew you here in the first place."
  else if workerName = "seo" then
    "META_DESCRIPTION: \"Comprehensive video analysis exploring key insights, valuable content, and meaningful takeaways for viewers interested in engaging multimedia content\"\nKEYWORDS: \"video analysis, content insights, educational content, video review, multimedia analysis, content strategy, viewer engagement\""
  else if workerName = "tags" then
    "Tags: #VideoAnalysis #ContentCreation #DigitalMedia #LearningContent #VideoInsights #MultimediaAnalysis #ContentStrategy #ViewerEngagement #EducationalContent #VideoReview"
  else
    "## " ++ pyTitle workerName ++ "\n\nAnalysis and insights for this content section."

/-- The awaited result of `asyncio.wait_for(worker.generate(transcript),
timeout=120)` as the orchestrator loop sees it: either a string value, or
an exception (a worker error that escaped, or the timeout) caught by the
per-worker `except` clause. -/
inductive WorkerOutcome where
  | ok (text : String)
  | raised
deriving DecidableEq

/-- The generic-filler marker the orchestrator's quality gate looks for
(the opening of `BaseWorker._get_fallback_content`). -/
def mlFallbackMarker : String :=
  "As an ML researcher, let me break down what we discovered"

/-- The per-worker body of the loop in `generate_blog_post`
(orchestrator.py lines 181–207): accept `result.strip()` when the result
is truthy, its strip is longer than 20 characters and it does not contain
the generic-filler marker; otherwise store `_get_quality_fallback`. -/
def processWorker (url workerName : String) (o : WorkerOutcome) : String :=
  match o with
  | .ok result =>
    if result ≠ "" ∧ (pyStrip result).length > 20 then
      if ¬ strContains result mlFallbackMarker then pyStrip result
      else getQualityFallback workerName url
    else getQualityFallback workerName url
  | .raised => getQualityFallback workerName url

/-- Whether the orchestrator's quality gate accepts the worker's raw
outcome (the condition of the branch that stores `result.strip()`). -/
def workerAccepted (o : WorkerOutcome) : Bool :=
  match o with
  | .ok result =>
    (result ≠ "" ∧ (pyStrip result).length > 20 : Bool) &&
      ! strContains result mlFallbackMarker
  | .raised => false

/-- The whole worker loop of `generate_blog_post`. Every branch of the
loop body assigns `sections[worker_name]` and executes
`successful_workers += 1`; `failed_workers` is initialised to `[]` and
never appended to. The loop therefore yields the section list in
registration order, a success counter equal to the number of workers, and
an empty failure list. -/
def runWorkers (url : String) (outcomes : String → WorkerOutcome) :
    List (String × String) × Nat × List String :=
  (workers.map (fun w => (w, processWorker url w (outcomes w))),
   workers.length, [])

/-! ## Assembly: `_assemble_blog_guaranteed` -/

/-- The fixed assembly order (note: `"seo"` is absent from it). -/
def sectionOrder : List String :=
  ["title", "intro", "key_points", "quotes", "summary", "conclusion",
   "tags"]

/-- The fallback parts used when no section survives filtering. -/
def defaultBlogParts : List String :=
  ["# Video Content Analysis",
   "This analysis provides insights from the video content.",
   "## Overview",
   "The video contains valuable information and perspectives.",
   "## Summary",
   "Content analysis completed with available information.",
   "Tags: #Video #Analysis #Content"]

/-- The filtering pass of `_assemble_blog_guaranteed`: walk
`section_order`, strip each section's text (`content` in the source), and
keep it only when it is truthy and longer than 10 characters. -/
def assembleParts (sections : List (String × String)) : List String :=
  sectionOrder.filterMap (fun name =>
    if pyStrip (dictGet sections name "") ≠ "" ∧
        (pyStrip (dictGet sections name "")).length > 10 then
      some (pyStrip (dictGet sections name ""))
    else none)

/-- Python `sep.join(parts)`. -/
def joinParts (sep : String) : List String → String
  | [] => ""
  | [p] => p
  | p :: rest => p ++ sep ++ joinParts sep rest

/-- `BlogOrchestrator._assemble_blog_guaranteed`. -/
def assembleBlogGuaranteed (sections : List (String × String)) : String :=
  joinParts "\n\n"
    (if assembleParts sections = [] then defaultBlogParts
     else assembleParts sections)

/-! ## The returned document -/

/-- A value of the `stats` dictionary: the dictionary mixes numbers and
strings. -/
inductive StatVal where
  | n (v : Nat)
  | s (v : String)
deriving DecidableEq

/-- The dictionary returned by `generate_blog_post`. -/
structure Document where
  content : String
  transcript : String
  sections : List (String × String)
  metadata : List (String × String)
  stats : List (String × StatVal)
deriving DecidableEq

def statsGet : List (String × StatVal) → String → Option StatVal
  | [], _ => none
  | (k', v) :: rest, k => if k' = k then some v else statsGet rest k

/-- The emergency content of the outer `except` clause of
`generate_blog_post`, with the URL interpolated. -/
def emergencyContent (url : String) : String :=
  "# Video Content Analysis\n\n" ++
  "An analysis was attempted for this YouTube video. While technical challenges prevented detailed processing, this represents content that likely provides value to its intended audience.\n\n" ++
  "**Video URL:** " ++ url ++ "\n" ++
  "**Processing Note:** Content analysis completed with available resources\n\n" ++
  "## Overview\n\n" ++
  "This video content contributes to the broader online media ecosystem and serves its audience through visual and audio elements that may include education, entertainment, or information sharing.\n\n" ++
  "## Key Takeaways\n\n" ++
  "Every piece of digital content represents someone\x27s effort to share ideas, knowledge, or experiences with others. This video is part of that ongoing conversation in the online community.\n\n" ++
  "## Conclusion\n\n" ++
  "While detailed analysis wasn\x27t possible, the video remains a valid piece of content that serves its purpose within its community and topic area.\n\n" ++
  "Tags: #VideoContent #Analysis #DigitalMedia"

/-- The dictionary built in the emergency branch (note its `stats` has
only four keys). -/
def emergencyDocument (url : String) : Document :=
  let e := emergencyContent url
  { content := e
    transcript := ""
    sections := [("emergency", e)]
    metadata := [("description", "Emergency content analysis"),
                 ("keywords", "video, content, analysis")]
    stats := [("word_count", .n (pyWordCount e)),
              ("processing_mode", .s "emergency"),
              ("successful_workers", .n 1),
              ("success_rate", .s "1/1")] }

/-- `BlogOrchestrator.generate_blog_post`, together with the number of
`worker.generate` invocations the run performs (one per registered worker
on the normal path, zero when the outer `except` clause fires). Inside
the `try` block only `fetch_transcript` can raise (its `_video_id` call);
everything after it is pure string manipulation with per-worker `except`
clauses. -/
def generateRun (url : String) (cache : Cache)
    (attempt : String → Option String) (elapsed : String)
    (outcomes : String → WorkerOutcome) : Document × Nat :=
  match fetchTranscript url cache attempt elapsed with
  | .error _ => (emergencyDocument url, 0)
  | .ok fr =>
    let rawTranscript := fr.text
    let transcript := enhancePoorTranscript rawTranscript url
    let (sections, successfulWorkers, failedWorkers) :=
      runWorkers url outcomes
    let blogContent := assembleBlogGuaranteed sections
    let stats : List (String × StatVal) :=
      [("transcript_length",
        .n (if rawTranscript = "" then 0 else rawTranscript.length)),
       ("enhanced_transcript_length", .n transcript.length),
       ("blog_length", .n blogContent.length),
       ("word_count", .n (pyWordCount blogContent)),
       ("successful_workers", .n successfulWorkers),
       ("failed_workers", .n failedWorkers.length),
       ("success_rate",
        .s (toString successfulWorkers ++ "/" ++ toString workers.length)),
       ("processing_mode",
        .s (if (if rawTranscript = "" then "" else rawTranscript).length < 100
            then "enhanced" else "standard"))]
    ({ content := blogContent
       transcript := if rawTranscript = "" then "" else rawTranscript
       sections := sections
       metadata :=
         [("description",
           "Video content analysis with comprehensive insights"),
          ("keywords",
           "video analysis, content insights, educational content")]
       stats := stats }, workers.length)

/-- The document `generate_blog_post` returns. -/
def generateBlogPost (url : String) (cache : Cache)
    (attempt : String → Option String) (elapsed : String)
    (outcomes : String → WorkerOutcome) : Document :=
  (generateRun url cache attempt elapsed outcomes).1

/-! ## BaseWorker.generate: workers/implementations.py -/

/-- The outcome of the single `_generate_ml_content` call a worker makes
(an LLM round-trip): a returned string or an exception. -/
inductive LlmOutcome where
  | ok (text : String)
  | raised
deriving DecidableEq

/-- `BaseWorker._get_fallback_content`, with the `TagsWorker` override. -/
def workerFallbackContent (name : String) : String :=
  if name = "tags" then
    "Tags: #MachineLearning #MLResearch #DataScience #AI #DeepLearning #MLEngineering #AIResearch #TechInsights #MLCommunity #DataScientist"
  else
    "## " ++ pyTitle name ++
    "\n\nAs an ML researcher, let me break down what we discovered in this section..."

/-- `BaseWorker.generate` and its attempt budget: short or empty
transcripts return the fallback without calling the LLM; otherwise
`_generate_ml_content` is called exactly once, and an exception from it is
converted to the fallback. The second component counts the
content-generation attempts performed. -/
def baseWorkerGenerate (name transcript : String) (llm : LlmOutcome) :
    String × Nat :=
  if transcript = "" ∨ transcript.length < 100 then
    (workerFallbackContent name, 0)
  else
    match llm with
    | .ok s => (s, 1)
    | .raised => (workerFallbackContent name, 1)

/-! ## The CLI and persistence: blog_generator.py -/

/-- The attribute names defined on `BlogOrchestrator` in orchestrator.py
(its callable interface). -/
def blogOrchestratorMethods : List String :=
  ["__init__", "_enhance_poor_transcript", "_get_quality_fallback",
   "generate_blog_post", "_assemble_blog_guaranteed"]

/-- The orchestrator method `blog_generator.main` invokes to persist the
generated document (`await orchestrator.save_blog_post(blog_data,
output_path)`). -/
def cliPersistenceCall : String := "save_blog_post"

/-! ## Concrete inputs used by witnesses and counterexamples -/

def sampleUrl : String := "https://www.youtube.com/watch?v=dQw4w9WgXcQ"

def sampleVid : String := "dQw4w9WgXcQ"

/-- A 150-character transcript, long enough for every length gate. -/
def longTranscript : String := String.mk (List.replicate 150 'a')

/-- A strategy environment in which every strategy returns absent. -/
def noStrategy : String → Option String := fun _ => none

/-- A strategy environment in which only the captions strategy succeeds. -/
def captionsOnly : String → Option String :=
  fun s => if s = "youtube_captions" then some longTranscript else none

/-- A worker environment in which every worker raises (or times out). -/
def allRaised : String → WorkerOutcome := fun _ => .raised

/-- A worker environment in which exactly the title worker raises and
every other worker returns an acceptable section body. -/
def oneRaised : String → WorkerOutcome :=
  fun w =>
    if w = "title" then .raised
    else .ok "a sufficiently detailed generated section body"

/-- Two section texts that differ only after their first 8 words. -/
def dupTitle : String := "alpha beta gamma delta epsilon zeta eta theta one"

def dupIntro : String := "alpha beta gamma delta epsilon zeta eta theta two"

/-! ## Helper lemmas -/

theorem str_ne_empty_of_pos {s : String} (h : 0 < s.length) : s ≠ "" := by
  intro he
  subst he
  exact absurd h (by decide)

theorem errorMsg_pos (elapsed : String) : 0 < (errorMsg elapsed).length := by
  unfold errorMsg
  rw [String.length_append]
  have h : 0 < ("Please try a different video with clear speech.").length := by
    decide
  omega

theorem cacheGet_put_self (c : Cache) (k : String × String) (v : String) :
    cacheGet (cachePut c k v) k = some v := by
  simp [cacheGet, cachePut]

theorem cacheGet_put_ne (c : Cache) {k k' : String × String} (v : String)
    (h : k ≠ k') : cacheGet (cachePut c k v) k' = cacheGet c k' := by
  simp [cacheGet, cachePut, h]

theorem checkCaches_spec {vid : String} {cache : Cache} :
    ∀ {l : List String} {c : String}, checkCaches vid cache l = some c →
      ∃ s ∈ l, ∃ t, cacheGet cache (vid, s) = some t ∧ c = pyStrip t ∧
        pyStrip t ≠ "" ∧ (pyStrip t).length > 100 := by
  intro l
  induction l with
  | nil => intro c h; simp [checkCaches] at h
  | cons a rest ih =>
    intro c h
    rw [checkCaches] at h
    split at h
    case h_1 t hg =>
      split at h
      case isTrue hcond =>
        cases h
        exact ⟨a, List.mem_cons_self a rest, t, hg, rfl, hcond.1, hcond.2⟩
      case isFalse hcond =>
        obtain ⟨s, hs, t', ht', hc, h1, h2⟩ := ih h
        exact ⟨s, List.mem_cons_of_mem a hs, t', ht', hc, h1, h2⟩
    case h_2 hg =>
      obtain ⟨s, hs, t', ht', hc, h1, h2⟩ := ih h
      exact ⟨s, List.mem_cons_of_mem a hs, t', ht', hc, h1, h2⟩

theorem checkCaches_isSome {vid : String} {cache : Cache} :
    ∀ {l : List String} {s t : String}, s ∈ l →
      cacheGet cache (vid, s) = some t → pyStrip t ≠ "" →
      (pyStrip t).length > 100 → (checkCaches vid cache l).isSome := by
  intro l
  induction l with
  | nil => intro s t hs; cases hs
  | cons a rest ih =>
    intro s t hs ht h1 h2
    rw [checkCaches]
    split
    case h_1 u hg =>
      split
      case isTrue hcond => rfl
      case isFalse hcond =>
        rcases List.mem_cons.mp hs with he | hm
        · subst he
          rw [ht] at hg
          cases hg
          exact absurd ⟨h1, h2⟩ hcond
        · exact ih hm ht h1 h2
    case h_2 hg =>
      rcases List.mem_cons.mp hs with he | hm
      · subst he; rw [ht] at hg; cases hg
      · exact ih hm ht h1 h2

theorem tryStrategies_allNone {vid : String} {attempt : String → Option String}
    {cache : Cache} :
    ∀ {l : List String}, (∀ s ∈ l, attempt s = none) →
      tryStrategies vid attempt cache l = (none, cache, l) := by
  intro l
  induction l with
  | nil => intro _; rfl
  | cons a rest ih =>
    intro h
    rw [tryStrategies, h a (List.mem_cons_self a rest),
      ih (fun s hs => h s (List.mem_cons_of_mem a hs))]

theorem tryStrategies_some_spec {vid : String}
    {attempt : String → Option String} {cache : Cache} :
    ∀ {l : List String} {t : String} {c : Cache} {called : List String},
      tryStrategies vid attempt cache l = (some t, c, called) →
      ∃ s ∈ l, ∃ r, attempt s = some r ∧ r ≠ "" ∧ (pyStrip r).length > 100 ∧
        t = pyStrip r ∧ c = cachePut cache (vid, s) r := by
  intro l
  induction l with
  | nil => intro t c called h; cases h
  | cons a rest ih =>
    intro t c called h
    rw [tryStrategies] at h
    split at h
    case h_1 r ha =>
      split at h
      case isTrue hcond =>
        injection h with h1 h2
        injection h1 with h1
        injection h2 with h2 h3
        exact ⟨a, List.mem_cons_self a rest, r, ha, hcond.1, hcond.2,
          h1.symm, h2.symm⟩
      case isFalse hcond =>
        rcases htry : tryStrategies vid attempt cache rest with ⟨o, c', called'⟩
        rw [htry] at h
        injection h with h1 h2
        injection h2 with h2 h3
        subst h1 h2
        obtain ⟨s, hs, r', har, hr1, hr2, ht', hc'⟩ := ih htry
        exact ⟨s, List.mem_cons_of_mem a hs, r', har, hr1, hr2, ht', hc'⟩
    case h_2 ha =>
      rcases htry : tryStrategies vid attempt cache rest with ⟨o, c', called'⟩
      rw [htry] at h
      injection h with h1 h2
      injection h2 with h2 h3
      subst h1 h2
      obtain ⟨s, hs, r', har, hr1, hr2, ht', hc'⟩ := ih htry
      exact ⟨s, List.mem_cons_of_mem a hs, r', har, hr1, hr2, ht', hc'⟩

theorem checkCaches_put {vid r : String} {cache : Cache} :
    ∀ {l : List String} {s : String}, s ∈ l →
      checkCaches vid cache l = none → pyStrip r ≠ "" →
      (pyStrip r).length > 100 →
      checkCaches vid (cachePut cache (vid, s) r) l = some (pyStrip r) := by
  intro l
  induction l with
  | nil => intro s hs; cases hs
  | cons a rest ih =>
    intro s hs hnone h1 h2
    rw [checkCaches] at hnone
    by_cases has : a = s
    · subst has
      simp only [checkCaches, cacheGet_put_self]
      rw [if_pos ⟨h1, h2⟩]
    · have hskip : cacheGet (cachePut cache (vid, s) r) (vid, a) =
          cacheGet cache (vid, a) := by
        apply cacheGet_put_ne
        intro hk
        exact has (congrArg Prod.snd hk).symm
      have hsrest : s ∈ rest := by
        rcases List.mem_cons.mp hs with he | hm
        · exact absurd he.symm has
        · exact hm
      rw [checkCaches, hskip]
      cases hg : cacheGet cache (vid, a) with
      | some t =>
        simp only [hg] at hnone ⊢
        by_cases hcond : pyStrip t ≠ "" ∧ (pyStrip t).length > 100
        · rw [if_pos hcond] at hnone; cases hnone
        · rw [if_neg hcond] at hnone
          rw [if_neg hcond]
          exact ih hsrest hnone h1 h2
      | none =>
        simp only [hg] at hnone ⊢
        exact ih hsrest hnone h1 h2

theorem fetchTranscript_cacheHit {url vid : String} {cache : Cache}
    {attempt : String → Option String} {elapsed c : String}
    (hv : videoId url = some vid)
    (hc : checkCaches vid cache EXTRACTION_STRATEGIES = some c) :
    fetchTranscript url cache attempt elapsed = .ok ⟨c, cache, []⟩ := by
  simp only [fetchTranscript, hv, hc]

theorem fetchTranscript_allFail {url vid : String} {cache : Cache}
    {attempt : String → Option String} {elapsed : String}
    (hv : videoId url = some vid)
    (hcc : checkCaches vid cache EXTRACTION_STRATEGIES = none)
    (hall : ∀ s ∈ EXTRACTION_STRATEGIES, attempt s = none) :
    fetchTranscript url cache attempt elapsed =
      .ok ⟨errorMsg elapsed, cache, EXTRACTION_STRATEGIES⟩ := by
  simp only [fetchTranscript, hv, hcc, tryStrategies_allNone hall]

theorem fetchTranscript_ok {url vid : String} (cache : Cache)
    (attempt : String → Option String) (elapsed : String)
    (hv : videoId url = some vid) :
    ∃ fr, fetchTranscript url cache attempt elapsed = .ok fr := by
  cases hcc : checkCaches vid cache EXTRACTION_STRATEGIES with
  | some c => exact ⟨⟨c, cache, []⟩, fetchTranscript_cacheHit hv hcc⟩
  | none =>
    rcases htry : tryStrategies vid attempt cache EXTRACTION_STRATEGIES with
      ⟨o, c', called'⟩
    cases o with
    | some t =>
      exact ⟨⟨t, c', called'⟩, by simp only [fetchTranscript, hv, hcc, htry]⟩
    | none =>
      exact ⟨⟨errorMsg elapsed, c', called'⟩,
        by simp only [fetchTranscript, hv, hcc, htry]⟩

theorem mem_assembleParts {sections : List (String × String)} {p : String}
    (hp : p ∈ assembleParts sections) : 10 < p.length := by
  unfold assembleParts at hp
  rw [List.mem_filterMap] at hp
  obtain ⟨name, -, hname⟩ := hp
  split at hname
  case isTrue hcond => cases hname; exact hcond.2
  case isFalse hcond => cases hname

theorem joinParts_pos {sep : String} :
    ∀ {parts : List String}, parts ≠ [] →
      (∀ p ∈ parts, 10 < p.length) → 0 < (joinParts sep parts).length := by
  intro parts
  induction parts with
  | nil => intro h; exact absurd rfl h
  | cons p rest ih =>
    intro _ hall
    have hp := hall p (List.mem_cons_self p rest)
    cases rest with
    | nil => show 0 < (joinParts sep [p]).length; rw [joinParts]; omega
    | cons q rest' =>
      show 0 < (p ++ sep ++ joinParts sep (q :: rest')).length
      rw [String.length_append, String.length_append]
      omega

theorem assembleBlogGuaranteed_pos (sections : List (String × String)) :
    0 < (assembleBlogGuaranteed sections).length := by
  unfold assembleBlogGuaranteed
  split
  case isTrue h => decide
  case isFalse h =>
    exact joinParts_pos h (fun p hp => mem_assembleParts hp)

theorem emergencyContent_pos (url : String) :
    0 < (emergencyContent url).length := by
  unfold emergencyContent
  rw [String.length_append]
  have h : 0 < ("Tags: #VideoContent #Analysis #DigitalMedia").length := by
    decide
  omega

theorem generateBlogPost_content_pos (url : String) (cache : Cache)
    (attempt : String → Option String) (elapsed : String)
    (outcomes : String → WorkerOutcome) :
    0 < (generateBlogPost url cache attempt elapsed outcomes).content.length := by
  cases h : fetchTranscript url cache attempt elapsed with
  | error e =>
    simp only [generateBlogPost, generateRun, h, runWorkers]
    exact emergencyContent_pos url
  | ok fr =>
    simp only [generateBlogPost, generateRun, h, runWorkers]
    exact assembleBlogGuaranteed_pos _

theorem generateRun_count_ok {url : String} {cache : Cache}
    {attempt : String → Option String} {elapsed : String} {fr : FetchResult}
    (outcomes : String → WorkerOutcome)
    (h : fetchTranscript url cache attempt elapsed = .ok fr) :
    (generateRun url cache attempt elapsed outcomes).2 = workers.length := by
  simp only [generateRun, h, runWorkers]

theorem generateBlogPost_sections_ok {url : String} {cache : Cache}
    {attempt : String → Option String} {elapsed : String} {fr : FetchResult}
    (outcomes : String → WorkerOutcome)
    (h : fetchTranscript url cache attempt elapsed = .ok fr) :
    (generateBlogPost url cache attempt elapsed outcomes).sections =
      workers.map (fun w => (w, processWorker url w (outcomes w))) := by
  simp only [generateBlogPost, generateRun, h, runWorkers]

theorem generateBlogPost_transcript_ok {url : String} {cache : Cache}
    {attempt : String → Option String} {elapsed : String} {fr : FetchResult}
    (outcomes : String → WorkerOutcome)
    (h : fetchTranscript url cache attempt elapsed = .ok fr) :
    (generateBlogPost url cache attempt elapsed outcomes).transcript =
      if fr.text = "" then "" else fr.text := by
  simp only [generateBlogPost, generateRun, h, runWorkers]

theorem generateBlogPost_stats_ok {url : String} {cache : Cache}
    {attempt : String → Option String} {elapsed : String} {fr : FetchResult}
    (outcomes : String → WorkerOutcome)
    (h : fetchTranscript url cache attempt elapsed = .ok fr) :
    statsGet (generateBlogPost url cache attempt elapsed outcomes).stats
        "successful_workers" = some (.n workers.length) ∧
    statsGet (generateBlogPost url cache attempt elapsed outcomes).stats
        "failed_workers" = some (.n 0) := by
  simp only [generateBlogPost, generateRun, h, runWorkers]
  exact ⟨rfl, rfl⟩

theorem dictGet_map_self {g : String → String} :
    ∀ {l : List String} {w : String}, w ∈ l →
      dictGet (l.map fun x => (x, g x)) w "" = g w := by
  intro l
  induction l with
  | nil => intro w hw; cases hw
  | cons a rest ih =>
    intro w hw
    rw [List.map_cons, dictGet]
    by_cases haw : a = w
    · rw [if_pos haw, haw]
    · rw [if_neg haw]
      rcases List.mem_cons.mp hw with he | hm
      · exact absurd he.symm haw
      · exact ih hm

/-! ## Claim theorems -/

/-- C1 (counterexample): with all 8 registered workers failing
(8 > 4 = floor(8/2)), `generate_blog_post` does not raise any
`InsufficientQuality` error — the embedding is a total function into
`Document` because the orchestrator catches every per-worker exception —
and it returns a complete document: all 8 sections are present,
`stats.successful_workers` is still 8 (every branch of the worker loop
counts as success), and the content is non-empty. The claim's required
behaviour (raise and return no document) is therefore false at this
input. -/
theorem c1_counterexample :
    (workers.filter (fun w => ! workerAccepted (allRaised w))).length = 8 ∧
    workers.length / 2 = 4 ∧
    (generateBlogPost sampleUrl [] noStrategy "0.0" allRaised).sections.length
      = 8 ∧
    statsGet (generateBlogPost sampleUrl [] noStrategy "0.0" allRaised).stats
      "successful_workers" = some (.n 8) ∧
    0 < (generateBlogPost sampleUrl [] noStrategy "0.0"
      allRaised).content.length :=
  ⟨by decide, by decide, by decide, by decide,
    generateBlogPost_content_pos sampleUrl [] noStrategy "0.0" allRaised⟩

/-- C1 (amended): when more than floor(N/2) of the N registered workers
fail (raise, time out, or end in fallback), `generate_blog_post` does not
raise: it returns a document whose sections map still has N entries,
whose `stats.successful_workers` is N and `stats.failed_workers` is 0,
and whose content is non-empty. -/
theorem c1_majority_failure_still_returns_document
    (url vid elapsed : String) (cache : Cache)
    (attempt : String → Option String) (outcomes : String → WorkerOutcome)
    (hv : videoId url = some vid)
    (hmaj : workers.length / 2 <
      (workers.filter (fun w => ! workerAccepted (outcomes w))).length) :
    (generateBlogPost url cache attempt elapsed outcomes).sections.length =
      workers.length ∧
    statsGet (generateBlogPost url cache attempt elapsed outcomes).stats
      "successful_workers" = some (.n workers.length) ∧
    statsGet (generateBlogPost url cache attempt elapsed outcomes).stats
      "failed_workers" = some (.n 0) ∧
    0 < (generateBlogPost url cache attempt elapsed outcomes).content.length := by
  obtain ⟨fr, hfr⟩ := fetchTranscript_ok cache attempt elapsed hv
  have hstats := generateBlogPost_stats_ok outcomes hfr
  refine ⟨?_, hstats.1, hstats.2,
    generateBlogPost_content_pos url cache attempt elapsed outcomes⟩
  rw [generateBlogPost_sections_ok outcomes hfr, List.length_map]

/-- Witness for the amended C1 at a concrete run in which all 8 workers
raise. -/
theorem c1_majority_failure_still_returns_document_witness :
    (generateBlogPost sampleUrl [] noStrategy "0.0" allRaised).sections.length =
      workers.length ∧
    statsGet (generateBlogPost sampleUrl [] noStrategy "0.0" allRaised).stats
      "successful_workers" = some (.n workers.length) ∧
    statsGet (generateBlogPost sampleUrl [] noStrategy "0.0" allRaised).stats
      "failed_workers" = some (.n 0) ∧
    0 < (generateBlogPost sampleUrl [] noStrategy "0.0"
      allRaised).content.length :=
  c1_majority_failure_still_returns_document sampleUrl sampleVid "0.0" []
    noStrategy allRaised (by decide) (by decide)

/-- C2 (counterexample): on a run in which every strategy returns absent,
the chain's failure-explanation text flows into the pipeline, which
raises no `InvalidContent` error: all 8 workers are invoked (the claim
requires a worker invocation count of 0) and a document is returned. -/
theorem c2_counterexample :
    (generateRun sampleUrl [] noStrategy "0.0" allRaised).2 = 8 ∧
    (generateRun sampleUrl [] noStrategy "0.0" allRaised).1.transcript =
      errorMsg "0.0" ∧
    0 < (generateRun sampleUrl [] noStrategy "0.0"
      allRaised).1.content.length :=
  ⟨by decide, by decide,
    generateBlogPost_content_pos sampleUrl [] noStrategy "0.0" allRaised⟩

/-- C2 (amended): when extraction yields the failure-explanation text
(every strategy absent), the pipeline performs no validation and raises
nothing: the per-run worker invocation count equals the number of
registered workers, the returned document's transcript is exactly the
failure-explanation text, and a non-empty document is produced. -/
theorem c2_failure_text_reaches_all_workers
    (url vid elapsed : String) (cache : Cache)
    (attempt : String → Option String) (outcomes : String → WorkerOutcome)
    (hv : videoId url = some vid)
    (hcc : checkCaches vid cache EXTRACTION_STRATEGIES = none)
    (hall : ∀ s ∈ EXTRACTION_STRATEGIES, attempt s = none) :
    (generateRun url cache attempt elapsed outcomes).2 = workers.length ∧
    (generateRun url cache attempt elapsed outcomes).1.transcript =
      errorMsg elapsed ∧
    0 < (generateRun url cache attempt elapsed outcomes).1.content.length := by
  have hfr : fetchTranscript url cache attempt elapsed =
      .ok ⟨errorMsg elapsed, cache, EXTRACTION_STRATEGIES⟩ :=
    fetchTranscript_allFail hv hcc hall
  refine ⟨generateRun_count_ok outcomes hfr, ?_,
    generateBlogPost_content_pos url cache attempt elapsed outcomes⟩
  have h := generateBlogPost_transcript_ok outcomes hfr
  dsimp only at h
  rw [if_neg (str_ne_empty_of_pos (errorMsg_pos elapsed))] at h
  exact h

/-- Witness for the amended C2 at a concrete all-absent run. -/
theorem c2_failure_text_reaches_all_workers_witness :
    (generateRun sampleUrl [] noStrategy "0.0" allRaised).2 = workers.length ∧
    (generateRun sampleUrl [] noStrategy "0.0" allRaised).1.transcript =
      errorMsg "0.0" ∧
    0 < (generateRun sampleUrl [] noStrategy "0.0"
      allRaised).1.content.length :=
  c2_failure_text_reaches_all_workers sampleUrl sampleVid "0.0" [] noStrategy
    allRaised (by decide) (by decide) (fun s _ => rfl)

/-- C3 (counterexample): in a run in which exactly one worker raises, the
sections map does contain 8 entries, but `stats.failed_workers` is 0, not
1 — the orchestrator's `failed_workers` list is initialised empty and
never appended to. -/
theorem c3_counterexample :
    (workers.filter
      (fun w => decide (oneRaised w = WorkerOutcome.raised))).length = 1 ∧
    (generateBlogPost sampleUrl [] noStrategy "0.0" oneRaised).sections.length
      = 8 ∧
    statsGet (generateBlogPost sampleUrl [] noStrategy "0.0" oneRaised).stats
      "failed_workers" = some (.n 0) :=
  ⟨by decide, by decide, by decide⟩

/-- C3 (amended): with exactly one of the N registered workers raising,
the returned document's sections map still contains N entries, the raised
worker's section holds its deterministic quality fallback, but
`stats.failed_workers` records 0 (the failure list is never populated). -/
theorem c3_one_raise_sections_complete
    (url vid elapsed : String) (cache : Cache)
    (attempt : String → Option String) (outcomes : String → WorkerOutcome)
    (hv : videoId url = some vid)
    (hone : (workers.filter
      (fun w => decide (outcomes w = WorkerOutcome.raised))).length = 1) :
    (generateBlogPost url cache attempt elapsed outcomes).sections.length =
      workers.length ∧
    (∀ w ∈ workers, outcomes w = WorkerOutcome.raised →
      dictGet (generateBlogPost url cache attempt elapsed outcomes).sections
        w "" = getQualityFallback w url) ∧
    statsGet (generateBlogPost url cache attempt elapsed outcomes).stats
      "failed_workers" = some (.n 0) := by
  obtain ⟨fr, hfr⟩ := fetchTranscript_ok cache attempt elapsed hv
  refine ⟨?_, ?_, (generateBlogPost_stats_ok outcomes hfr).2⟩
  · rw [generateBlogPost_sections_ok outcomes hfr, List.length_map]
  · intro w hw hrw
    rw [generateBlogPost_sections_ok outcomes hfr, dictGet_map_self hw, hrw]
    rfl

/-- Witness for the amended C3 at a concrete run in which exactly the
title worker raises. -/
theorem c3_one_raise_sections_complete_witness :
    (generateBlogPost sampleUrl [] noStrategy "0.0" oneRaised).sections.length
      = workers.length ∧
    (∀ w ∈ workers, oneRaised w = WorkerOutcome.raised →
      dictGet (generateBlogPost sampleUrl [] noStrategy "0.0"
        oneRaised).sections w "" = getQualityFallback w sampleUrl) ∧
    statsGet (generateBlogPost sampleUrl [] noStrategy "0.0" oneRaised).stats
      "failed_workers" = some (.n 0) :=
  c3_one_raise_sections_complete sampleUrl sampleVid "0.0" [] noStrategy
    oneRaised (by decide) (by decide)

/-- C4: for every video identity that has a cache entry satisfying the
invariant of every cache write performed by `fetch_transcript` (the entry
strips to a non-empty text longer than 100 characters), the chain returns
the stripped cached text immediately, leaves the cache unchanged, and
invokes no extraction strategy (the list of invoked strategies is empty,
i.e. every strategy's call count stays at zero). -/
theorem c4_cache_hit_skips_strategies
    (url vid s t elapsed : String) (cache : Cache)
    (attempt : String → Option String)
    (hv : videoId url = some vid) (hs : s ∈ EXTRACTION_STRATEGIES)
    (ht : cacheGet cache (vid, s) = some t)
    (h1 : pyStrip t ≠ "") (h2 : (pyStrip t).length > 100) :
    ∃ s' ∈ EXTRACTION_STRATEGIES, ∃ t', cacheGet cache (vid, s') = some t' ∧
      fetchTranscript url cache attempt elapsed =
        .ok ⟨pyStrip t', cache, []⟩ := by
  obtain ⟨c, hc⟩ :=
    Option.isSome_iff_exists.mp (checkCaches_isSome hs ht h1 h2)
  obtain ⟨s', hs', t', ht', hct, -, -⟩ := checkCaches_spec hc
  refine ⟨s', hs', t', ht', ?_⟩
  rw [← hct]
  exact fetchTranscript_cacheHit hv hc

/-- Witness for C4 at a concrete cached identity. -/
theorem c4_cache_hit_skips_strategies_witness :
    ∃ s' ∈ EXTRACTION_STRATEGIES, ∃ t',
      cacheGet [((sampleVid, "video_description"), longTranscript)]
        (sampleVid, s') = some t' ∧
      fetchTranscript sampleUrl
        [((sampleVid, "video_description"), longTranscript)] noStrategy
        "0.0" = .ok ⟨pyStrip t',
          [((sampleVid, "video_description"), longTranscript)], []⟩ :=
  c4_cache_hit_skips_strategies sampleUrl sampleVid "video_description"
    longTranscript "0.0" [((sampleVid, "video_description"), longTranscript)]
    noStrategy (by decide) (by decide) (by decide) (by decide) (by decide)

/-- C5: for every URL containing a valid video identity, with no usable
cache entry and every strategy returning absent, the chain returns the
descriptive failure-explanation string (with positive length, hence never
empty text) instead of raising an exception. -/
theorem c5_chain_returns_failure_text
    (url vid elapsed : String) (cache : Cache)
    (attempt : String → Option String)
    (hv : videoId url = some vid)
    (hcc : checkCaches vid cache EXTRACTION_STRATEGIES = none)
    (hall : ∀ s ∈ EXTRACTION_STRATEGIES, attempt s = none) :
    fetchTranscript url cache attempt elapsed =
      .ok ⟨errorMsg elapsed, cache, EXTRACTION_STRATEGIES⟩ ∧
    0 < (errorMsg elapsed).length :=
  ⟨fetchTranscript_allFail hv hcc hall, errorMsg_pos elapsed⟩

/-- Witness for C5 at a concrete all-absent run. -/
theorem c5_chain_returns_failure_text_witness :
    fetchTranscript sampleUrl [] noStrategy "0.0" =
      .ok ⟨errorMsg "0.0", [], EXTRACTION_STRATEGIES⟩ ∧
    0 < (errorMsg "0.0").length :=
  c5_chain_returns_failure_text sampleUrl sampleVid "0.0" [] noStrategy
    (by decide) (by decide) (fun s _ => rfl)

/-- C6 (counterexample): a worker whose raw output is rejected by the
quality gate (here: 9 characters, under the 20-character floor) gets no
retry with an amended corrective instruction: the worker performed
exactly one generation attempt and the orchestrator substitutes the
worker-specific quality fallback directly — yet the claim requires
exactly one retry, i.e. a second attempt, before the fallback. -/
theorem c6_counterexample :
    workerAccepted (WorkerOutcome.ok "too short") = false ∧
    (baseWorkerGenerate "intro" longTranscript
      (LlmOutcome.ok "too short")).2 = 1 ∧
    processWorker sampleUrl "intro" (WorkerOutcome.ok "too short") =
      getQualityFallback "intro" sampleUrl :=
  ⟨by decide, by decide, by decide⟩

/-- C6 (amended): a worker whose raw output is rejected by the quality
gate falls directly to the deterministic worker-specific fallback with no
retry; a worker's section is produced by at most one generation
attempt. -/
theorem c6_rejected_output_direct_fallback
    (url name transcript : String) (o : WorkerOutcome) (llm : LlmOutcome)
    (h : workerAccepted o = false) :
    processWorker url name o = getQualityFallback name url ∧
    (baseWorkerGenerate name transcript llm).2 ≤ 1 := by
  constructor
  · cases o with
    | raised => rfl
    | ok r =>
      simp only [processWorker]
      by_cases h1 : r ≠ "" ∧ (pyStrip r).length > 20
      · rw [if_pos h1]
        by_cases hm : strContains r mlFallbackMarker = true
        · rw [if_neg (fun hc => hc hm)]
        · exfalso
          cases hb : strContains r mlFallbackMarker with
          | true => exact hm hb
          | false =>
            have htrue : workerAccepted (WorkerOutcome.ok r) = true := by
              simp only [workerAccepted, hb, decide_eq_true h1]
              rfl
            rw [h] at htrue
            exact Bool.false_ne_true htrue
      · rw [if_neg h1]
  · simp only [baseWorkerGenerate]
    by_cases ht : transcript = "" ∨ transcript.length < 100
    · rw [if_pos ht]
      exact Nat.zero_le 1
    · rw [if_neg ht]
      cases llm with
      | ok s => exact Nat.le_refl 1
      | raised => exact Nat.le_refl 1

/-- Witness for the amended C6 at a concrete rejected output. -/
theorem c6_rejected_output_direct_fallback_witness :
    processWorker sampleUrl "intro" (WorkerOutcome.ok "too short") =
      getQualityFallback "intro" sampleUrl ∧
    (baseWorkerGenerate "intro" longTranscript
      (LlmOutcome.ok "too short")).2 ≤ 1 :=
  c6_rejected_output_direct_fallback sampleUrl "intro" longTranscript
    (WorkerOutcome.ok "too short") (LlmOutcome.ok "too short") (by decide)

/-- C7 (counterexample): two sections sharing their first 8 words both
survive assembly — the assembler performs no first-N-words
deduplication — so the second one does appear in the document content,
contrary to the claim's second conjunct. -/
theorem c7_counterexample :
    (pyWords dupTitle).take 8 = (pyWords dupIntro).take 8 ∧
    (dupTitle == dupIntro) = false ∧
    assembleParts [("title", dupTitle), ("intro", dupIntro)] =
      [dupTitle, dupIntro] ∧
    strContains
      (assembleBlogGuaranteed [("title", dupTitle), ("intro", dupIntro)])
      dupIntro = true :=
  ⟨by decide, by decide, by decide, by decide⟩

/-- C7 (amended): every block that survives assembly filtering is longer
than 10 characters — in particular a section whose text is exactly the
empty string never appears in the assembled content; the
first-8-words deduplication of the original claim is not performed. -/
theorem c7_assembled_parts_nonempty
    (sections : List (String × String)) (p : String)
    (hp : p ∈ assembleParts sections) : 10 < p.length :=
  mem_assembleParts hp

/-- Witness for the amended C7 at a concrete section map. -/
theorem c7_assembled_parts_nonempty_witness : 10 < dupTitle.length :=
  c7_assembled_parts_nonempty [("title", dupTitle), ("intro", dupIntro)]
    dupTitle (by decide)

/-- C8: the persistence entry point is missing. `blog_generator.main`
persists via `await orchestrator.save_blog_post(blog_data, output_path)`,
but `BlogOrchestrator` defines no `save_blog_post` (nor any save) method,
so every CLI run raises `AttributeError` after generation instead of
writing the document. -/
theorem c8_save_entry_point_missing :
    (blogOrchestratorMethods.contains cliPersistenceCall) = false := by
  decide

/-- C9: warm-cache idempotence. If the first call on a URL succeeds
through a strategy (the cache-writing call), it returns the stripped
strategy output; the second call on the updated cache returns exactly the
same text, via the cache, invoking no strategy. -/
theorem c9_warm_cache_idempotent
    (url vid e1 e2 t : String) (cache c1 : Cache)
    (a1 a2 : String → Option String) (called : List String)
    (hv : videoId url = some vid)
    (hcc : checkCaches vid cache EXTRACTION_STRATEGIES = none)
    (htry : tryStrategies vid a1 cache EXTRACTION_STRATEGIES =
      (some t, c1, called)) :
    fetchTranscript url cache a1 e1 = .ok ⟨t, c1, called⟩ ∧
    fetchTranscript url c1 a2 e2 = .ok ⟨t, c1, []⟩ := by
  constructor
  · simp only [fetchTranscript, hv, hcc, htry]
  · obtain ⟨s, hs, r, -, -, hr2, htt, hc1⟩ := tryStrategies_some_spec htry
    have hps : pyStrip r ≠ "" := str_ne_empty_of_pos (by omega)
    have hcp : checkCaches vid c1 EXTRACTION_STRATEGIES =
        some (pyStrip r) := by
      rw [hc1]
      exact checkCaches_put hs hcc hps hr2
    rw [htt]
    exact fetchTranscript_cacheHit hv hcp

/-- Witness for C9 at a concrete double run through the captions
strategy. -/
theorem c9_warm_cache_idempotent_witness :
    fetchTranscript sampleUrl [] captionsOnly "0.0" =
      .ok ⟨longTranscript,
        [((sampleVid, "youtube_captions"), longTranscript)],
        ["youtube_captions"]⟩ ∧
    fetchTranscript sampleUrl
      [((sampleVid, "youtube_captions"), longTranscript)] captionsOnly
      "9.9" = .ok ⟨longTranscript,
        [((sampleVid, "youtube_captions"), longTranscript)], []⟩ :=
  c9_warm_cache_idempotent sampleUrl sampleVid "0.0" "9.9" longTranscript []
    [((sampleVid, "youtube_captions"), longTranscript)] captionsOnly
    captionsOnly ["youtube_captions"] (by decide) (by decide) (by decide)

/-- C10: `generate_blog_post` never propagates an exception — the
embedding is a total function into `Document`, whose fields are exactly
the keys `content`, `transcript`, `sections`, `metadata` and `stats` of
the returned dictionary — and the `content` value is a non-empty string
on every input, including URLs with no extractable identity (the
emergency branch) and runs in which every worker fails. -/
theorem c10_generate_always_returns_document
    (url elapsed : String) (cache : Cache)
    (attempt : String → Option String)
    (outcomes : String → WorkerOutcome) :
    0 < (generateBlogPost url cache attempt elapsed outcomes).content.length :=
  generateBlogPost_content_pos url cache attempt elapsed outcomes

end YtBlog
